import Mathlib

/-!
Verification of the mtb credential relay.

The repository has two components:
* `server.go` — three HTTP handlers (`/login`, `/security`, `/log-bot-activity`)
  that normalise a submission and make a single outbound call to the Telegram
  Bot API (`sendTelegramMessage`).
* a client-side anti-bot script — a scored heuristic classifier
  (`detectBot` and its four signal-group checks), a honeypot/interception
  layer on form submission, a fingerprint generator, and a periodic
  reporting loop.

The embedding below mirrors the source: handlers are pure functions from a
request (with the results of the Go standard library parsers supplied as
fields, since body parsing is library code) and a flag saying whether the
outbound Telegram call succeeds, to a response plus a record of whether the
outbound call was attempted and with what message text.  The client script
is embedded as pure score arithmetic plus an explicit page state (the global
score accumulator and the closures created by `checkBehaviorPatterns`) with
one step function per browser event (mousemove, input, interval tick, form
submit).  Event-listener dispatch uses the DOM rule that the listener list
is snapshotted when the event is dispatched, so listeners registered during
a dispatch do not run for that event.
-/

namespace Mtb

/-! ## Server data model (server.go) -/

/-- Go struct `LoginRequest`: fields absent from the JSON body unmarshal to
the empty string. -/
structure LoginRequest where
  username : String
  password : String
  securityAnswers : List String
deriving DecidableEq

/-- Go struct `BotActivity` as received (`IP` is filled in by the handler,
`Timestamp` is kept as its RFC3339 rendering). -/
structure BotActivity where
  score : Int
  fingerprint : String
  timestamp : String
deriving DecidableEq

/-- An incoming HTTP request, with the outcomes of the Go standard library
parsers (`ParseForm`, `io.ReadAll`, `json.Unmarshal`) supplied as fields:
`none` means the unmarshal failed.  `now` stands for
`time.Now().Format(time.RFC3339)`. -/
structure HttpRequest where
  method : String
  contentType : String
  remoteAddr : String
  xForwardedFor : String
  formParseOk : Bool
  formValues : List (String × String)
  bodyReadOk : Bool
  jsonLogin : Option LoginRequest
  jsonMap : Option (List (String × String))
  jsonBotActivity : Option BotActivity
  now : String
deriving DecidableEq

/-- The response a handler writes: status code, body text (Go `http.Error`
appends a newline), and the `Location` header for redirects.  The CORS
headers are set unconditionally by every handler and are not modelled. -/
structure HttpResponse where
  status : Nat
  body : String
  redirectLocation : Option String
deriving DecidableEq

/-- A handler run: the response plus whether `sendTelegramMessage` was
invoked and with what text. -/
structure HandlerResult where
  response : HttpResponse
  telegramCalled : Bool
  telegramMessage : Option String
deriving DecidableEq

/-- `r.FormValue(key)` / Go map indexing: empty string when absent. -/
def formValue (r : HttpRequest) (key : String) : String :=
  (List.lookup key r.formValues).getD ""

/-- Client IP derivation shared by all three handlers: first entry of
`X-Forwarded-For` when present, else `RemoteAddr` up to the first colon. -/
def clientIP (r : HttpRequest) : String :=
  if r.xForwardedFor ≠ "" then (r.xForwardedFor.splitOn ",").headD ""
  else (r.remoteAddr.splitOn ":").headD ""

/-- The text built for a login attempt (both the form and the JSON branch
use the same format string). -/
def loginMessage (username password ip timestamp : String) : String :=
  "🚨 Login Attempt 🚨\n\nUsername: " ++ username ++ "\nPassword: " ++ password
    ++ "\nIP: " ++ ip ++ "\nTimestamp: " ++ timestamp

/-- The text built for the security-answers relay. -/
def securityMessage (a1 a2 a3 ip timestamp : String) : String :=
  "🔐 Security Answers 🔐\n\nAnswer 1: " ++ a1 ++ "\nAnswer 2: " ++ a2
    ++ "\nAnswer 3: " ++ a3 ++ "\nIP: " ++ ip ++ "\nTimestamp: " ++ timestamp

/-- The text built for a bot-activity report. -/
def botActivityMessage (score : Int) (fingerprint ip timestamp : String) : String :=
  "🤖 Bot Activity Detected 🤖\n\nScore: " ++ toString score ++ "\nFingerprint: "
    ++ fingerprint ++ "\nIP: " ++ ip ++ "\nTimestamp: " ++ timestamp

/-- Success body of the JSON login branch (`json.Marshal` of a Go map, whose
keys are serialised in sorted order). -/
def loginSuccessBody (username : String) : String :=
  "\x7b\"message\":\"Login attempt processed successfully\",\"status\":\"success\",\"username\":\""
    ++ username ++ "\"\x7d"

def loginFailureBody : String :=
  "\x7b\"status\": \"error\", \"message\": \"Failed to send Telegram message\"\x7d"

def securitySuccessBody : String :=
  "\x7b\"status\": \"success\", \"message\": \"Security answers processed successfully\"\x7d"

def securityFailureBody : String :=
  "\x7b\"status\": \"error\", \"message\": \"Failed to process security answers\"\x7d"

def botActivitySuccessBody : String :=
  "\x7b\"status\":\"success\"\x7d"

/-- `loginHandler` (server.go lines 52-181).  `telegramOk` says whether
`sendTelegramMessage` returns a nil error.  On the form-encoded branch a
delivery failure is logged and the handler issues the same `303 /security.html`
redirect as on success; `http.Redirect` writes no body for a POST request.
The invalid-JSON error body embeds the Go error text and is modelled without
it. -/
def loginHandler (telegramOk : Bool) (r : HttpRequest) : HandlerResult :=
  if r.method = "OPTIONS" then
    { response := ⟨200, "", none⟩, telegramCalled := false, telegramMessage := none }
  else if r.method ≠ "POST" then
    { response := ⟨405, "Method not allowed\n", none⟩, telegramCalled := false,
      telegramMessage := none }
  else if r.contentType = "application/x-www-form-urlencoded" then
    if r.formParseOk then
      let username := formValue r "userId"
      let password := formValue r "Passcode"
      let message := loginMessage username password (clientIP r) r.now
      -- sendTelegramMessage is attempted unconditionally; both on failure
      -- (after logging) and on success the handler redirects to
      -- /security.html with StatusSeeOther.
      if telegramOk then
        { response := ⟨303, "", some "/security.html"⟩, telegramCalled := true,
          telegramMessage := some message }
      else
        { response := ⟨303, "", some "/security.html"⟩, telegramCalled := true,
          telegramMessage := some message }
    else
      { response := ⟨400, "Error parsing form data\n", none⟩, telegramCalled := false,
        telegramMessage := none }
  else if r.contentType ≠ "application/json" then
    { response := ⟨415, "Content-Type must be application/json\n", none⟩,
      telegramCalled := false, telegramMessage := none }
  else if r.bodyReadOk then
    match r.jsonLogin with
    | none =>
      { response := ⟨400, "Bad Request: Invalid JSON\n", none⟩, telegramCalled := false,
        telegramMessage := none }
    | some req =>
      if req.username = "" ∨ req.password = "" then
        { response := ⟨400, "Username and password are required\n", none⟩,
          telegramCalled := false, telegramMessage := none }
      else
        let message := loginMessage req.username req.password (clientIP r) r.now
        if telegramOk then
          { response := ⟨200, loginSuccessBody req.username, none⟩, telegramCalled := true,
            telegramMessage := some message }
        else
          { response := ⟨500, loginFailureBody, none⟩, telegramCalled := true,
            telegramMessage := some message }
  else
    { response := ⟨400, "Error reading request body\n", none⟩, telegramCalled := false,
      telegramMessage := none }

/-- `securityHandler` (server.go lines 183-267): extracts three answer
strings from either a form-encoded or a JSON body, performs no validation
on them, and relays them. -/
def securityHandler (telegramOk : Bool) (r : HttpRequest) : HandlerResult :=
  if r.method = "OPTIONS" then
    { response := ⟨200, "", none⟩, telegramCalled := false, telegramMessage := none }
  else if r.method ≠ "POST" then
    { response := ⟨405, "Method not allowed\n", none⟩, telegramCalled := false,
      telegramMessage := none }
  else if r.contentType = "application/x-www-form-urlencoded" then
    if r.formParseOk then
      let message := securityMessage (formValue r "answer1") (formValue r "answer2")
        (formValue r "answer3") (clientIP r) r.now
      if telegramOk then
        { response := ⟨200, securitySuccessBody, none⟩, telegramCalled := true,
          telegramMessage := some message }
      else
        { response := ⟨500, securityFailureBody, none⟩, telegramCalled := true,
          telegramMessage := some message }
    else
      { response := ⟨400, "Error parsing form data\n", none⟩, telegramCalled := false,
        telegramMessage := none }
  else if r.contentType = "application/json" then
    if r.bodyReadOk then
      match r.jsonMap with
      | none =>
        { response := ⟨400, "Invalid JSON\n", none⟩, telegramCalled := false,
          telegramMessage := none }
      | some data =>
        let message := securityMessage ((List.lookup "answer1" data).getD "")
          ((List.lookup "answer2" data).getD "") ((List.lookup "answer3" data).getD "")
          (clientIP r) r.now
        if telegramOk then
          { response := ⟨200, securitySuccessBody, none⟩, telegramCalled := true,
            telegramMessage := some message }
        else
          { response := ⟨500, securityFailureBody, none⟩, telegramCalled := true,
            telegramMessage := some message }
    else
      { response := ⟨400, "Error reading request body\n", none⟩, telegramCalled := false,
        telegramMessage := none }
  else
    { response := ⟨415, "Unsupported content type\n", none⟩, telegramCalled := false,
      telegramMessage := none }

/-- `logBotActivityHandler` (server.go lines 313-376): a delivery failure is
only logged; the handler writes the success response regardless of the
outcome of `sendTelegramMessage`. -/
def logBotActivityHandler (telegramOk : Bool) (r : HttpRequest) : HandlerResult :=
  if r.method = "OPTIONS" then
    { response := ⟨200, "", none⟩, telegramCalled := false, telegramMessage := none }
  else if r.method ≠ "POST" then
    { response := ⟨405, "Method not allowed\n", none⟩, telegramCalled := false,
      telegramMessage := none }
  else if r.bodyReadOk then
    match r.jsonBotActivity with
    | none =>
      { response := ⟨400, "Invalid JSON\n", none⟩, telegramCalled := false,
        telegramMessage := none }
    | some activity =>
      let message := botActivityMessage activity.score activity.fingerprint
        (clientIP r) activity.timestamp
      -- the error from sendTelegramMessage is logged and discarded
      { response := ⟨200, botActivitySuccessBody, none⟩, telegramCalled := true,
        telegramMessage := some message }
  else
    { response := ⟨400, "Error reading request body\n", none⟩, telegramCalled := false,
      telegramMessage := none }

/-! ## Client-side classifier (anti-bot script)

The script keeps one module-global accumulator `botDetectionScore` and a
constant `BOT_THRESHOLD = 3`.  `detectBot` resets the accumulator and runs
four signal-group checks; each check reads ambient browser state, modelled
here by the snapshot `Env`.  Boolean fields stand for the truthiness of the
corresponding expression in the script; a single field stands for a single
`if` whose condition is a disjunction of several reads (e.g. the three
automation DOM attributes feed one `if` adding 2 once). -/

structure Env where
  /-- `navigator.webdriver === true` -/
  webdriver : Bool
  /-- any of the `webdriver`, `selenium`, `driver` DOM attributes is truthy -/
  webdriverAttr : Bool
  /-- `window.callPhantom || window._phantom || window.phantom` -/
  phantom : Bool
  /-- `window.__nightmare` -/
  nightmare : Bool
  /-- `window.domAutomation || window.domAutomationController` -/
  domAutomation : Bool
  /-- `navigator.plugins.length` -/
  pluginsLength : Nat
  /-- `!navigator.languages` -/
  languagesMissing : Bool
  /-- `navigator.languages.length` -/
  languagesLength : Nat
  /-- `'ontouchstart' in window || navigator.maxTouchPoints > 0` -/
  hasTouch : Bool
  /-- the mobile user-agent regular expression matches `navigator.userAgent` -/
  mobileUA : Bool
  /-- `window.screen.width` -/
  screenWidth : Nat
  /-- `window.screen.height` -/
  screenHeight : Nat
  /-- `window.chrome` is truthy -/
  hasChrome : Bool
  /-- constructing and using an audio context throws -/
  audioFails : Bool
deriving DecidableEq

def BOT_THRESHOLD : Nat := 3

/-- `checkAutomationFlags`: five independent `if`s, each adding 2. -/
def checkAutomationFlags (env : Env) (score : Nat) : Nat :=
  let score := if env.webdriver then score + 2 else score
  let score := if env.webdriverAttr then score + 2 else score
  let score := if env.phantom then score + 2 else score
  let score := if env.nightmare then score + 2 else score
  if env.domAutomation then score + 2 else score

/-- `checkBrowserConsistency`: four independent `if`s with weights 1,1,2,2. -/
def checkBrowserConsistency (env : Env) (score : Nat) : Nat :=
  let score := if env.pluginsLength = 0 then score + 1 else score
  let score := if env.languagesMissing ∨ env.languagesLength = 0 then score + 1 else score
  let score := if env.mobileUA ∧ ¬env.hasTouch then score + 2 else score
  if env.screenWidth < 2 ∨ env.screenHeight < 2 then score + 2 else score

/-- `checkBehaviorPatterns` adds nothing to the score during the pass
itself: its body only registers event listeners (a mousemove listener, an
input listener per text or password input, and a submit listener per form)
over fresh local counters.  The listener side is modelled by
`detectBotPass` below. -/
def checkBehaviorPatterns (_env : Env) (score : Nat) : Nat := score

/-- The synchronous part of `checkHeadlessBrowser`: the missing
`window.chrome` check (+1) and the audio-context probe (+1 on exception).
The notification-permission branch resolves in a later microtask, after the
pass has returned, and is therefore not part of the pass; it is an
inter-pass mutation of the accumulator, which the next pass resets. -/
def checkHeadlessBrowser (env : Env) (score : Nat) : Nat :=
  let score := if ¬env.hasChrome then score + 1 else score
  if env.audioFails then score + 1 else score

/-- The value of `botDetectionScore` when `detectBot` returns: reset to 0,
then the four signal-group checks in source order. -/
def detectBotScore (env : Env) : Nat :=
  let score := 0
  let score := checkAutomationFlags env score
  let score := checkBrowserConsistency env score
  let score := checkBehaviorPatterns env score
  checkHeadlessBrowser env score

/-- `detectBot`: `botDetectionScore >= BOT_THRESHOLD`. -/
def detectBot (env : Env) : Bool := BOT_THRESHOLD ≤ detectBotScore env

/-- `detectBot` as it acts on the global accumulator: whatever value
`botDetectionScore` held before the call is overwritten by the
`botDetectionScore = 0` reset at entry; the pair returned is the final
accumulator value and the verdict. -/
def detectBotGlobal (prevScore : Nat) (env : Env) : Nat × Bool :=
  let botDetectionScore := prevScore
  -- reset score for new check
  let botDetectionScore := 0
  let botDetectionScore := checkAutomationFlags env botDetectionScore
  let botDetectionScore := checkBrowserConsistency env botDetectionScore
  let botDetectionScore := checkBehaviorPatterns env botDetectionScore
  let botDetectionScore := checkHeadlessBrowser env botDetectionScore
  (botDetectionScore, decide (BOT_THRESHOLD ≤ botDetectionScore))

/-! ### Signal weights as plain sums -/

/-- Total weight contributed by the automation-marker group. -/
def autoWeight (env : Env) : Nat :=
  (if env.webdriver then 2 else 0) + (if env.webdriverAttr then 2 else 0)
    + (if env.phantom then 2 else 0) + (if env.nightmare then 2 else 0)
    + (if env.domAutomation then 2 else 0)

/-- Number of automation-marker signals that fire. -/
def autoCount (env : Env) : Nat :=
  (if env.webdriver then 1 else 0) + (if env.webdriverAttr then 1 else 0)
    + (if env.phantom then 1 else 0) + (if env.nightmare then 1 else 0)
    + (if env.domAutomation then 1 else 0)

/-- Total weight contributed by the environment-consistency group. -/
def consWeight (env : Env) : Nat :=
  (if env.pluginsLength = 0 then 1 else 0)
    + (if env.languagesMissing ∨ env.languagesLength = 0 then 1 else 0)
    + (if env.mobileUA ∧ ¬env.hasTouch then 2 else 0)
    + (if env.screenWidth < 2 ∨ env.screenHeight < 2 then 2 else 0)

/-- Total weight contributed by the synchronous headless-browser group. -/
def headWeight (env : Env) : Nat :=
  (if ¬env.hasChrome then 1 else 0) + (if env.audioFails then 1 else 0)

/-- Sum of the weights of all signals that fire during one synchronous
pass. -/
def signalWeightSum (env : Env) : Nat :=
  autoWeight env + consWeight env + headWeight env

/-! ### Page state and event dispatch -/

/-- The local variables of one `checkBehaviorPatterns` invocation, closed
over by the listeners it registers. -/
structure BehaviorClosure where
  mouseMovements : Nat
  lastMouseX : Int
  lastMouseY : Int
  lastInputTime : Nat
  suspiciousInputSpeed : Nat
deriving DecidableEq

/-- The counters start at zero (`lastMouseX`/`lastMouseY` start at 0, so a
first mousemove at the origin is not counted as a change). -/
def freshClosure : BehaviorClosure := ⟨0, 0, 0, 0, 0⟩

/-- Page-global mutable state of the script: the score accumulator and the
closures created so far (one per `checkBehaviorPatterns` call, in
registration order; each has a mousemove, input and submit listener). -/
structure PageState where
  score : Nat
  closures : List BehaviorClosure
deriving DecidableEq

/-- State after `initAntiBotProtection`: the accumulator initialiser is 0
and no `checkBehaviorPatterns` call has happened yet — initialisation only
registers the honeypot listener and the interception listener on each
form. -/
def initPage : PageState := ⟨0, []⟩

/-- The DOM attributes the honeypot field is created with. -/
structure HoneypotField where
  inputType : String
  name : String
  elemId : String
  autocomplete : String
  tabIndex : Int
  positionStyle : String
  leftStyle : String
  ariaHidden : String
deriving DecidableEq

def honeypotField : HoneypotField :=
  ⟨"text", "website", "website", "off", -1, "absolute", "-5000px", "true"⟩

/-- A mousemove event at `(x, y)`: every registered mousemove listener
increments its own closure counter when the position differs from the last
one it recorded. -/
def mouseMove (x y : Int) (st : PageState) : PageState :=
  { st with
    closures := st.closures.map fun c =>
      if x ≠ c.lastMouseX ∨ y ≠ c.lastMouseY then
        { c with mouseMovements := c.mouseMovements + 1, lastMouseX := x, lastMouseY := y }
      else c }

/-- One input listener firing at time `now` (milliseconds): returns the
updated closure and its contribution to the global score (1 when this event
is the fourth or later sub-50ms gap seen by that closure). -/
def inputStep (now : Nat) (c : BehaviorClosure) : BehaviorClosure × Nat :=
  if 0 < c.lastInputTime ∧ now - c.lastInputTime < 50 then
    let speed := c.suspiciousInputSpeed + 1
    ({ c with lastInputTime := now, suspiciousInputSpeed := speed },
      if 3 < speed then 1 else 0)
  else
    ({ c with lastInputTime := now }, 0)

/-- An input event on a form field at time `now`: each pass registered one
listener on the field, all sharing that pass's closure. -/
def inputEvent (now : Nat) (st : PageState) : PageState :=
  let updated := st.closures.map (inputStep now)
  { score := st.score + (updated.map Prod.snd).sum,
    closures := updated.map Prod.fst }

/-- One call to `detectBot` acting on the page: the accumulator is reset
and recomputed from the environment, and `checkBehaviorPatterns` appends a
new closure (fresh counters, new listeners).  Returns the new state and the
verdict. -/
def detectBotPass (env : Env) (st : PageState) : PageState × Bool :=
  ({ score := detectBotScore env, closures := st.closures ++ [freshClosure] },
    decide (BOT_THRESHOLD ≤ detectBotScore env))

/-- Number of closures whose own mouse counter is below the fixed minimum
of 5. -/
def lowMovementCount (cs : List BehaviorClosure) : Nat :=
  (cs.filter fun c => c.mouseMovements < 5).length

/-- Outcome of dispatching a submit event. -/
structure SubmitResult where
  state : PageState
  /-- global score right after the honeypot listener ran -/
  scoreAfterHoneypot : Nat
  /-- global score right after `detectBot` returned inside the interception
  listener (the score of the pass triggered by this submission) -/
  passScore : Nat
  /-- the verdict the interception listener acts on -/
  verdict : Bool
  /-- the interception listener always prevents the default submission and,
  when the verdict is not bot, schedules the programmatic `fetch` that
  delivers the form data -/
  fetchScheduled : Bool
deriving DecidableEq

/-- Dispatch of a submit event on a form with honeypot value
`honeypotFilled`.  The listener list is snapshotted at dispatch, in
registration order: the honeypot listener (registered first by
`addHoneypotFields`), the interception listener (registered second by
`applyTimingVariations`), then one behaviour listener per
`checkBehaviorPatterns` call made before this event.  The closure appended
by this event's own `detectBot` call is not in the snapshot and its submit
listener does not run for this event. -/
def submitEvent (env : Env) (honeypotFilled : Bool) (st : PageState) : SubmitResult :=
  -- honeypot listener: a non-empty decoy field prevents the default and
  -- adds 3 to the accumulator
  let score1 := if honeypotFilled then st.score + 3 else st.score
  -- interception listener: runs detectBot (which resets the accumulator,
  -- discarding score1) and acts on the verdict
  let passed := detectBotPass env { st with score := score1 }
  -- behaviour submit listeners registered by earlier passes: each adds 1
  -- when its own closure saw fewer than 5 distinct mouse positions
  let finalScore := passed.1.score + lowMovementCount st.closures
  { state := { passed.1 with score := finalScore },
    scoreAfterHoneypot := score1,
    passScore := passed.1.score,
    verdict := passed.2,
    fetchScheduled := !passed.2 }

/-- A suspicion report sent by the periodic loop. -/
structure Report where
  score : Nat
  fingerprint : String
  timestamp : String
deriving DecidableEq

/-- One tick of the 5000 ms reporting interval: run `detectBot`; when the
verdict is bot, POST the current accumulator value, the cached fingerprint
and the current time to `/log-bot-activity` (fire-and-forget). -/
def intervalTick (env : Env) (cachedFingerprint timestamp : String) (st : PageState) :
    PageState × Option Report :=
  let passed := detectBotPass env st
  if passed.2 then (passed.1, some ⟨passed.1.score, cachedFingerprint, timestamp⟩)
  else (passed.1, none)

/-! ### Fingerprint generation -/

/-- The environment attributes read by `generateFingerprint`.  Numeric
fields that the script guards with `|| 'unknown'` are 0 exactly when the
original value is falsy (undefined or 0). -/
structure FpEnv where
  userAgent : String
  language : String
  colorDepth : Nat
  timezoneOffset : Int
  screenWidth : Nat
  screenHeight : Nat
  hardwareConcurrency : Nat
  deviceMemory : Nat
  hasLocalStorage : Bool
  hasSessionStorage : Bool
  hasIndexedDB : Bool
deriving DecidableEq

/-- The `components` array, each entry rendered the way `Array.join`
stringifies it. -/
def fingerprintComponents (e : FpEnv) : List String :=
  [e.userAgent,
   e.language,
   toString e.colorDepth,
   toString e.timezoneOffset,
   toString e.screenWidth ++ "x" ++ toString e.screenHeight,
   if e.hardwareConcurrency = 0 then "unknown" else toString e.hardwareConcurrency,
   if e.deviceMemory = 0 then "unknown" else toString e.deviceMemory,
   if e.hasLocalStorage then "true" else "false",
   if e.hasSessionStorage then "true" else "false",
   if e.hasIndexedDB then "true" else "false"]

/-- `generateFingerprint`: the components joined with the fixed delimiter. -/
def generateFingerprint (e : FpEnv) : String :=
  String.intercalate "###" (fingerprintComponents e)

/-- `initAntiBotProtection` computes the fingerprint once and caches it in
`sessionStorage`; every later report reuses the cached string. -/
def sessionFingerprint (e : FpEnv) : String := generateFingerprint e

/-! ## Signal-group order independence -/

/-- The four signal-group checks in the order `detectBot` runs them, each as
a transformer of the accumulator. -/
def signalGroupChecks (env : Env) : List (Nat → Nat) :=
  [checkAutomationFlags env, checkBrowserConsistency env,
   checkBehaviorPatterns env, checkHeadlessBrowser env]

/-- Run a list of checks over the accumulator, left to right. -/
def runChecks (cs : List (Nat → Nat)) (s : Nat) : Nat :=
  cs.foldl (fun acc f => f acc) s

/-! ## Concrete sample data -/

/-- A clean desktop browser: no signal fires. -/
def cleanEnv : Env :=
  { webdriver := false, webdriverAttr := false, phantom := false, nightmare := false,
    domAutomation := false, pluginsLength := 3, languagesMissing := false,
    languagesLength := 2, hasTouch := false, mobileUA := false,
    screenWidth := 1920, screenHeight := 1080, hasChrome := true, audioFails := false }

/-- Clean browser except `navigator.webdriver` is set: exactly one
automation marker fires. -/
def oneMarkerEnv : Env := { cleanEnv with webdriver := true }

/-- Two automation markers fire. -/
def twoMarkersEnv : Env := { oneMarkerEnv with phantom := true }

def sampleFpEnv : FpEnv :=
  { userAgent := "Mozilla/5.0", language := "en-US", colorDepth := 24,
    timezoneOffset := 300, screenWidth := 1920, screenHeight := 1080,
    hardwareConcurrency := 8, deviceMemory := 8, hasLocalStorage := true,
    hasSessionStorage := true, hasIndexedDB := true }

/-- A POST request skeleton; individual fields are overridden per scenario. -/
def baseReq : HttpRequest :=
  { method := "POST", contentType := "", remoteAddr := "203.0.113.9:51324",
    xForwardedFor := "", formParseOk := true, formValues := [], bodyReadOk := true,
    jsonLogin := none, jsonMap := none, jsonBotActivity := none,
    now := "2026-10-11T12:00:00Z" }

/-- Form-encoded POST whose form contains no fields at all, so `userId` and
`Passcode` (and the `answerN` fields) all read as the empty string. -/
def formEmptyReq : HttpRequest :=
  { baseReq with contentType := "application/x-www-form-urlencoded" }

/-- Form-encoded POST carrying a non-empty username and password. -/
def formGoodLoginReq : HttpRequest :=
  { baseReq with
    contentType := "application/x-www-form-urlencoded"
    formValues := [("userId", "alice"), ("Passcode", "hunter2")] }

/-- JSON POST whose body parsed with an empty username. -/
def jsonEmptyLoginReq : HttpRequest :=
  { baseReq with
    contentType := "application/json"
    jsonLogin := some ⟨"", "hunter2", []⟩ }

/-- JSON POST with non-empty credentials. -/
def jsonGoodLoginReq : HttpRequest :=
  { baseReq with
    contentType := "application/json"
    jsonLogin := some ⟨"alice", "hunter2", []⟩ }

/-- POST to the suspicion-report endpoint with a parsed body. -/
def botActivityReq : HttpRequest :=
  { baseReq with jsonBotActivity := some ⟨5, "fp", "2026-10-11T12:00:00Z"⟩ }

def getReq : HttpRequest := { baseReq with method := "GET" }

def optionsReq : HttpRequest := { baseReq with method := "OPTIONS" }

end Mtb

namespace Mtb

/-! ## Score arithmetic lemmas -/

theorem checkAutomationFlags_eq (env : Env) (s : Nat) :
    checkAutomationFlags env s = s + autoWeight env := by
  simp only [checkAutomationFlags, autoWeight]
  split_ifs <;> omega

theorem checkBrowserConsistency_eq (env : Env) (s : Nat) :
    checkBrowserConsistency env s = s + consWeight env := by
  simp only [checkBrowserConsistency, consWeight]
  split_ifs <;> omega

theorem checkHeadlessBrowser_eq (env : Env) (s : Nat) :
    checkHeadlessBrowser env s = s + headWeight env := by
  simp only [checkHeadlessBrowser, headWeight]
  split_ifs <;> omega

theorem checkBehaviorPatterns_eq (env : Env) (s : Nat) :
    checkBehaviorPatterns env s = s + 0 := rfl

theorem autoWeight_eq (env : Env) : autoWeight env = 2 * autoCount env := by
  simp only [autoWeight, autoCount]
  split_ifs <;> omega

theorem detectBotScore_eq_sum (env : Env) :
    detectBotScore env = signalWeightSum env := by
  simp only [detectBotScore, checkBehaviorPatterns, signalWeightSum,
    checkAutomationFlags_eq, checkBrowserConsistency_eq, checkHeadlessBrowser_eq]
  omega

theorem runChecks_cons (f : Nat → Nat) (cs : List (Nat → Nat)) (s : Nat) :
    runChecks (f :: cs) s = runChecks cs (f s) := rfl

theorem detectBotScore_eq_runChecks (env : Env) :
    detectBotScore env = runChecks (signalGroupChecks env) 0 := rfl

theorem runChecks_shift (cs : List (Nat → Nat))
    (h : ∀ f ∈ cs, ∀ s, f s = s + f 0) (s : Nat) :
    runChecks cs s = s + runChecks cs 0 := by
  induction cs generalizing s with
  | nil => simp [runChecks]
  | cons f cs ih =>
    have hf := h f (List.mem_cons_self f cs)
    have hcs : ∀ g ∈ cs, ∀ t, g t = t + g 0 :=
      fun g hg => h g (List.mem_cons_of_mem f hg)
    rw [runChecks_cons, runChecks_cons, ih hcs (f s), ih hcs (f 0), hf s]
    omega

theorem signalGroupChecks_shift (env : Env) :
    ∀ f ∈ signalGroupChecks env, ∀ s, f s = s + f 0 := by
  intro f hf s
  simp only [signalGroupChecks, List.mem_cons, List.not_mem_nil, or_false] at hf
  rcases hf with h | h | h | h <;> subst h
  · rw [checkAutomationFlags_eq, checkAutomationFlags_eq]; omega
  · rw [checkBrowserConsistency_eq, checkBrowserConsistency_eq]; omega
  · rfl
  · rw [checkHeadlessBrowser_eq, checkHeadlessBrowser_eq]; omega

theorem runChecks_eq_sum (cs : List (Nat → Nat))
    (h : ∀ f ∈ cs, ∀ s, f s = s + f 0) :
    runChecks cs 0 = (cs.map fun f => f 0).sum := by
  induction cs with
  | nil => rfl
  | cons f cs ih =>
    have hcs : ∀ g ∈ cs, ∀ t, g t = t + g 0 :=
      fun g hg => h g (List.mem_cons_of_mem f hg)
    rw [runChecks_cons, runChecks_shift cs hcs (f 0), ih hcs, List.map_cons,
      List.sum_cons]

/-! ## Claim theorems: the heuristic classifier -/

/-- C6.  Each call to `detectBot` overwrites whatever value the global
accumulator held with 0 at entry, and returns the bot verdict exactly when
the sum of the fired signal weights reaches the threshold 3; consequently a
pass with no firing signal yields "not bot", one automation marker alone
(weight 2, no other signal) is below the threshold, and any two automation
markers are above it. -/
theorem detectBot_reset_and_threshold (prevScore : Nat) (env : Env) :
    detectBotGlobal prevScore env = (detectBotScore env, detectBot env) ∧
    (detectBot env = true ↔ BOT_THRESHOLD ≤ signalWeightSum env) ∧
    (signalWeightSum env = 0 → detectBot env = false) ∧
    (autoCount env = 1 ∧ consWeight env = 0 ∧ headWeight env = 0 →
      detectBot env = false) ∧
    (2 ≤ autoCount env → detectBot env = true) := by
  have hsum : detectBotScore env = signalWeightSum env := detectBotScore_eq_sum env
  have hauto : autoWeight env = 2 * autoCount env := autoWeight_eq env
  refine ⟨rfl, ?_, ?_, ?_, ?_⟩
  · simp only [detectBot, decide_eq_true_eq, hsum]
  · intro h0
    simp only [detectBot, hsum, h0, BOT_THRESHOLD, decide_eq_false_iff_not]
    omega
  · rintro ⟨hA, hC, hH⟩
    have h2 : signalWeightSum env = 2 := by
      simp only [signalWeightSum, hauto, hA, hC, hH]
    simp only [detectBot, hsum, h2, BOT_THRESHOLD, decide_eq_false_iff_not]
    omega
  · intro h2
    have h4 : 4 ≤ signalWeightSum env := by
      simp only [signalWeightSum, hauto]
      omega
    simp only [detectBot, hsum, BOT_THRESHOLD, decide_eq_true_eq]
    omega

/-- Witness for C6: with two automation markers the verdict is bot, with a
single one and nothing else it is not. -/
theorem detectBot_reset_and_threshold_witness :
    detectBot twoMarkersEnv = true ∧ detectBot oneMarkerEnv = false :=
  ⟨(detectBot_reset_and_threshold 42 twoMarkersEnv).2.2.2.2 (by decide),
   (detectBot_reset_and_threshold 42 oneMarkerEnv).2.2.2.1 (by decide)⟩

/-- C7.  Within one pass the signal-group checks only add to the
accumulator — each check's result is the incoming score plus a contribution
that does not depend on the incoming score (so no signal can suppress
another and there is no early exit) — and running the four checks in any
permuted order from a reset accumulator produces the same final score as
`detectBot`'s source order. -/
theorem score_additive_order_independent (env : Env) (cs : List (Nat → Nat))
    (hperm : cs.Perm (signalGroupChecks env)) :
    runChecks cs 0 = detectBotScore env ∧
    ∀ f ∈ signalGroupChecks env, (∀ s, f s = s + f 0) ∧ ∀ s, s ≤ f s := by
  constructor
  · have hshift : ∀ f ∈ cs, ∀ s, f s = s + f 0 :=
      fun f hf => signalGroupChecks_shift env f (hperm.mem_iff.mp hf)
    rw [runChecks_eq_sum cs hshift, (hperm.map fun f => f 0).sum_eq,
      ← runChecks_eq_sum (signalGroupChecks env) (signalGroupChecks_shift env),
      detectBotScore_eq_runChecks]
  · intro f hf
    refine ⟨signalGroupChecks_shift env f hf, fun s => ?_⟩
    rw [signalGroupChecks_shift env f hf s]
    omega

/-- Witness for C7: swapping the first two signal groups leaves the score of
a concrete pass unchanged. -/
theorem score_additive_order_independent_witness :
    runChecks [checkBrowserConsistency twoMarkersEnv, checkAutomationFlags twoMarkersEnv,
      checkBehaviorPatterns twoMarkersEnv, checkHeadlessBrowser twoMarkersEnv] 0 =
      detectBotScore twoMarkersEnv :=
  (score_additive_order_independent twoMarkersEnv _
    (List.Perm.swap (checkAutomationFlags twoMarkersEnv)
      (checkBrowserConsistency twoMarkersEnv)
      [checkBehaviorPatterns twoMarkersEnv, checkHeadlessBrowser twoMarkersEnv])).1

/-- C8.  `generateFingerprint` is a pure function of the ten environment
attributes it reads: two snapshots that agree on every attribute produce the
same string, which is the component list joined with the fixed delimiter
"###", and the cached session fingerprint is that same string. -/
theorem fingerprint_deterministic (e1 e2 : FpEnv)
    (hua : e1.userAgent = e2.userAgent) (hla : e1.language = e2.language)
    (hcd : e1.colorDepth = e2.colorDepth) (htz : e1.timezoneOffset = e2.timezoneOffset)
    (hsw : e1.screenWidth = e2.screenWidth) (hsh : e1.screenHeight = e2.screenHeight)
    (hhc : e1.hardwareConcurrency = e2.hardwareConcurrency)
    (hdm : e1.deviceMemory = e2.deviceMemory)
    (hls : e1.hasLocalStorage = e2.hasLocalStorage)
    (hss : e1.hasSessionStorage = e2.hasSessionStorage)
    (hdb : e1.hasIndexedDB = e2.hasIndexedDB) :
    generateFingerprint e1 = generateFingerprint e2 ∧
    generateFingerprint e1 = String.intercalate "###" (fingerprintComponents e1) ∧
    sessionFingerprint e1 = generateFingerprint e1 := by
  obtain ⟨ua1, la1, cd1, tz1, sw1, sh1, hc1, dm1, ls1, ss1, db1⟩ := e1
  obtain ⟨ua2, la2, cd2, tz2, sw2, sh2, hc2, dm2, ls2, ss2, db2⟩ := e2
  simp only at hua hla hcd htz hsw hsh hhc hdm hls hss hdb
  subst hua hla hcd htz hsw hsh hhc hdm hls hss hdb
  exact ⟨rfl, rfl, rfl⟩

/-- Witness for C8 at a concrete snapshot. -/
theorem fingerprint_deterministic_witness :
    generateFingerprint sampleFpEnv = generateFingerprint sampleFpEnv ∧
    generateFingerprint sampleFpEnv =
      String.intercalate "###" (fingerprintComponents sampleFpEnv) ∧
    sessionFingerprint sampleFpEnv = generateFingerprint sampleFpEnv :=
  fingerprint_deterministic sampleFpEnv sampleFpEnv rfl rfl rfl rfl rfl rfl rfl rfl
    rfl rfl rfl

/-- C2 (code bug).  A submission with the decoy field filled and no other
signal firing: the honeypot listener raises the accumulator to 3 (the
threshold), but the interception listener's `detectBot` call resets the
accumulator before computing the verdict, so the verdict of that submission
is "not bot" and the programmatic `fetch` that delivers the form data is
still scheduled.  The +3 decoy weight can never reach any verdict. -/
theorem honeypot_score_discarded_by_reset :
    (submitEvent cleanEnv true initPage).scoreAfterHoneypot = 3 ∧
    (submitEvent cleanEnv true initPage).passScore = 0 ∧
    (submitEvent cleanEnv true initPage).verdict = false ∧
    (submitEvent cleanEnv true initPage).fetchScheduled = true ∧
    detectBotScore cleanEnv = 0 := by decide

/-- C3 counterexample.  Page freshly loaded (zero distinct mouse-position
changes, fewer than the minimum 5) and one automation marker (environment
score 2): the claim predicts the behavioural +1 lands in the submission
pass's score (making 3, verdict bot), but the pass scores 2, the verdict is
"not bot", and the accumulator after the whole dispatch is still 2.
Moreover the mouse counters do not persist across passes: after a first
pass and one mouse move, a second pass starts a new counter at 0 instead of
continuing the first counter. -/
theorem behavior_signal_absent_counterexample :
    (submitEvent oneMarkerEnv false initPage).passScore = 2 ∧
    (submitEvent oneMarkerEnv false initPage).verdict = false ∧
    (submitEvent oneMarkerEnv false initPage).state.score = 2 ∧
    ((detectBotPass cleanEnv (mouseMove 10 20 (detectBotPass cleanEnv initPage).1)).1.closures.map
      fun c => c.mouseMovements) = [1, 0] := by decide

/-- C3 amended.  Each scoring pass creates fresh behavioural counters (the
closure appended by `checkBehaviorPatterns` starts at zero) rather than
persisting one counter for the life of the page, and the pass triggered at
form submission receives no behavioural contribution at all: its score and
verdict equal the environment-only `detectBot` result, while the +1s of the
submit listeners registered by earlier passes are added to the global
accumulator only after that verdict. -/
theorem behavior_pass_contribution (env : Env) (honeypotFilled : Bool)
    (st : PageState) :
    (submitEvent env honeypotFilled st).passScore = detectBotScore env ∧
    (submitEvent env honeypotFilled st).verdict = detectBot env ∧
    (submitEvent env honeypotFilled st).state.score =
      detectBotScore env + lowMovementCount st.closures ∧
    (submitEvent env honeypotFilled st).state.closures = st.closures ++ [freshClosure] ∧
    (detectBotPass env st).1.closures = st.closures ++ [freshClosure] :=
  ⟨rfl, rfl, rfl, rfl, rfl⟩

/-! ## Claim theorems: the relay endpoints -/

/-- C1 counterexample.  A form-encoded POST to `/login` with an empty form
(`userId` and `Passcode` both read as the empty string) is relayed anyway:
the outbound call is made and the handler answers with the 303 redirect,
not a client-error status. -/
theorem login_empty_form_relayed :
    formValue formEmptyReq "userId" = "" ∧
    formValue formEmptyReq "Passcode" = "" ∧
    (loginHandler true formEmptyReq).telegramCalled = true ∧
    (loginHandler true formEmptyReq).response.status = 303 := by decide

/-- C1 amended.  Only the JSON branch of `/login` validates: a parsed JSON
body with an empty username or password gets a 400 and no outbound call,
while the form-encoded branch makes the outbound call and answers with the
303 redirect whatever the submitted values are. -/
theorem login_empty_credential_validation (telegramOk : Bool) (r : HttpRequest)
    (hm : r.method = "POST") :
    (∀ req : LoginRequest, r.contentType = "application/json" →
      r.bodyReadOk = true → r.jsonLogin = some req →
      (req.username = "" ∨ req.password = "") →
      (loginHandler telegramOk r).response.status = 400 ∧
      (loginHandler telegramOk r).telegramCalled = false) ∧
    (r.contentType = "application/x-www-form-urlencoded" → r.formParseOk = true →
      (loginHandler telegramOk r).telegramCalled = true ∧
      (loginHandler telegramOk r).response.status = 303) := by
  constructor
  · intro req hct hbr hj hemp
    rcases hemp with h | h <;> simp [loginHandler, hm, hct, hbr, hj, h]
  · intro hct hpf
    cases telegramOk <;> simp [loginHandler, hm, hct, hpf]

/-- Witness for the amended C1: concrete empty-username JSON request and
concrete empty form request. -/
theorem login_empty_credential_validation_witness :
    ((loginHandler true jsonEmptyLoginReq).response.status = 400 ∧
      (loginHandler true jsonEmptyLoginReq).telegramCalled = false) ∧
    ((loginHandler true formEmptyReq).telegramCalled = true ∧
      (loginHandler true formEmptyReq).response.status = 303) :=
  ⟨(login_empty_credential_validation true jsonEmptyLoginReq rfl).1
      ⟨"", "hunter2", []⟩ rfl rfl rfl (Or.inl rfl),
   (login_empty_credential_validation true formEmptyReq rfl).2 rfl rfl⟩

/-- C4 counterexample.  A well-formed form-encoded submission whose outbound
call fails receives exactly the same 303 redirect as when the call
succeeds: on the form branch the delivery failure is not surfaced as an
error-shaped response. -/
theorem login_form_failure_not_surfaced :
    (loginHandler false formGoodLoginReq).response =
      (loginHandler true formGoodLoginReq).response ∧
    (loginHandler false formGoodLoginReq).response.status = 303 ∧
    (loginHandler false formGoodLoginReq).response.redirectLocation =
      some "/security.html" ∧
    formValue formGoodLoginReq "userId" = "alice" ∧
    formValue formGoodLoginReq "Passcode" = "hunter2" := by decide

/-- C4 amended.  `/login` always returns a response on a delivery failure:
on the JSON branch the failure is surfaced as a 500 with a generic
error-shaped JSON body, while on the form-encoded branch it is only logged
and the caller gets the same 303 redirect as on success. -/
theorem login_delivery_failure_handling (r : HttpRequest) (req : LoginRequest)
    (hm : r.method = "POST") :
    (r.contentType = "application/json" → r.bodyReadOk = true →
      r.jsonLogin = some req → req.username ≠ "" → req.password ≠ "" →
      (loginHandler false r).telegramCalled = true ∧
      (loginHandler false r).response.status = 500 ∧
      (loginHandler false r).response.body = loginFailureBody) ∧
    (r.contentType = "application/x-www-form-urlencoded" → r.formParseOk = true →
      (loginHandler false r).telegramCalled = true ∧
      (loginHandler false r).response = (loginHandler true r).response ∧
      (loginHandler false r).response.status = 303) := by
  constructor
  · intro hct hbr hj hu hp
    simp [loginHandler, hm, hct, hbr, hj, hu, hp]
  · intro hct hpf
    simp [loginHandler, hm, hct, hpf]

/-- Witness for the amended C4 at concrete requests. -/
theorem login_delivery_failure_handling_witness :
    ((loginHandler false jsonGoodLoginReq).response.status = 500 ∧
      (loginHandler false jsonGoodLoginReq).response.body = loginFailureBody) ∧
    (loginHandler false formGoodLoginReq).response =
      (loginHandler true formGoodLoginReq).response :=
  ⟨⟨((login_delivery_failure_handling jsonGoodLoginReq ⟨"alice", "hunter2", []⟩
        rfl).1 rfl rfl rfl (by decide) (by decide)).2.1,
    ((login_delivery_failure_handling jsonGoodLoginReq ⟨"alice", "hunter2", []⟩
        rfl).1 rfl rfl rfl (by decide) (by decide)).2.2⟩,
   ((login_delivery_failure_handling formGoodLoginReq ⟨"", "", []⟩ rfl).2
      rfl rfl).2.1⟩

/-- C5.  `/log-bot-activity` on a POST whose body parsed as a bot-activity
record: the outbound call is attempted, and the handler writes the success
response (status 200, fixed success body) whether or not the delivery
succeeds — the whole handler result is independent of the delivery
outcome. -/
theorem log_bot_activity_always_success (telegramOk : Bool) (r : HttpRequest)
    (a : BotActivity) (hm : r.method = "POST") (hb : r.bodyReadOk = true)
    (hj : r.jsonBotActivity = some a) :
    (logBotActivityHandler telegramOk r).response.status = 200 ∧
    (logBotActivityHandler telegramOk r).response.body = botActivitySuccessBody ∧
    (logBotActivityHandler telegramOk r).telegramCalled = true ∧
    logBotActivityHandler telegramOk r = logBotActivityHandler (!telegramOk) r := by
  simp [logBotActivityHandler, hm, hb, hj]

/-- Witness for C5 with a failing delivery. -/
theorem log_bot_activity_always_success_witness :
    (logBotActivityHandler false botActivityReq).response.status = 200 ∧
    (logBotActivityHandler false botActivityReq).response.body =
      botActivitySuccessBody :=
  ⟨(log_bot_activity_always_success false botActivityReq
      ⟨5, "fp", "2026-10-11T12:00:00Z"⟩ rfl rfl rfl).1,
   (log_bot_activity_always_success false botActivityReq
      ⟨5, "fp", "2026-10-11T12:00:00Z"⟩ rfl rfl rfl).2.1⟩

/-- C9.  `/security` validates nothing about the answers: on any POST with
a supported content type and a parseable body — including one where all
three answers are empty strings — the outbound call is attempted, and when
delivery succeeds the handler returns 200. -/
theorem security_relays_empty_answers (telegramOk : Bool) (r : HttpRequest)
    (hm : r.method = "POST") :
    (r.contentType = "application/x-www-form-urlencoded" → r.formParseOk = true →
      (securityHandler telegramOk r).telegramCalled = true ∧
      (telegramOk = true → (securityHandler telegramOk r).response.status = 200)) ∧
    (∀ data, r.contentType = "application/json" → r.bodyReadOk = true →
      r.jsonMap = some data →
      (securityHandler telegramOk r).telegramCalled = true ∧
      (telegramOk = true → (securityHandler telegramOk r).response.status = 200)) := by
  constructor
  · intro hct hpf
    cases telegramOk <;> simp [securityHandler, hm, hct, hpf]
  · intro data hct hbr hj
    cases telegramOk <;> simp [securityHandler, hm, hct, hbr, hj]

/-- Witness for C9: the empty form (all three answers read as the empty
string) is relayed and answered with 200. -/
theorem security_relays_empty_answers_witness :
    formValue formEmptyReq "answer1" = "" ∧
    (securityHandler true formEmptyReq).telegramCalled = true ∧
    (securityHandler true formEmptyReq).response.status = 200 :=
  ⟨rfl, ((security_relays_empty_answers true formEmptyReq rfl).1 rfl rfl).1,
   ((security_relays_empty_answers true formEmptyReq rfl).1 rfl rfl).2 rfl⟩

/-- C10.  On each of the three endpoints, a request whose method is neither
POST nor OPTIONS gets a 405 and causes no outbound call, and an OPTIONS
request gets a 200 with an empty body (and no outbound call). -/
theorem method_guard_all_endpoints (telegramOk : Bool) (r : HttpRequest) :
    (r.method ≠ "POST" → r.method ≠ "OPTIONS" →
      ((loginHandler telegramOk r).response.status = 405 ∧
        (loginHandler telegramOk r).telegramCalled = false) ∧
      ((securityHandler telegramOk r).response.status = 405 ∧
        (securityHandler telegramOk r).telegramCalled = false) ∧
      ((logBotActivityHandler telegramOk r).response.status = 405 ∧
        (logBotActivityHandler telegramOk r).telegramCalled = false)) ∧
    (r.method = "OPTIONS" →
      ((loginHandler telegramOk r).response.status = 200 ∧
        (loginHandler telegramOk r).response.body = "" ∧
        (loginHandler telegramOk r).telegramCalled = false) ∧
      ((securityHandler telegramOk r).response.status = 200 ∧
        (securityHandler telegramOk r).response.body = "" ∧
        (securityHandler telegramOk r).telegramCalled = false) ∧
      ((logBotActivityHandler telegramOk r).response.status = 200 ∧
        (logBotActivityHandler telegramOk r).response.body = "" ∧
        (logBotActivityHandler telegramOk r).telegramCalled = false)) := by
  constructor
  · intro hp ho
    simp [loginHandler, securityHandler, logBotActivityHandler, hp, ho]
  · intro ho
    simp [loginHandler, securityHandler, logBotActivityHandler, ho]

/-- Witness for C10 with a GET and an OPTIONS request. -/
theorem method_guard_all_endpoints_witness :
    (loginHandler true getReq).response.status = 405 ∧
    (securityHandler true getReq).telegramCalled = false ∧
    (logBotActivityHandler true optionsReq).response.status = 200 :=
  ⟨((method_guard_all_endpoints true getReq).1 (by decide) (by decide)).1.1,
   ((method_guard_all_endpoints true getReq).1 (by decide) (by decide)).2.1.2,
   (((method_guard_all_endpoints true optionsReq).2 rfl).2.2).1⟩

end Mtb
